import Mathlib

/-!
# Verification of `segmentation.py` (dongchirua/diffusors)

A shallow embedding of the repository's single source file
`src/segmentation.py` and proofs of the specification claims about it.

Modelling conventions:

* Python values that may be file paths before the transform pipeline and
  tensors after it are represented by a type parameter `α` (Python is
  dynamically typed; no claim depends on the concrete value type).
* Python exceptions are modelled with `Except PyErr`: an uncaught Python
  exception corresponds to an `.error` result that every caller passes
  through unchanged (the repository contains no `try`/`except`).
* `numpy.random.RandomState` is external library code; it is modelled by a
  deterministic stand-in `RandomState` that is faithful to the two facts the
  repository relies on: `seed(n)` reinitialises the generator from `n`
  alone (discarding prior state), and `randint(0, n)` returns a value in
  `[0, n)` and advances the state (raising `ValueError` when `n = 0`).
* `torch`, the diffusion networks and the `DDPMScheduler` are external
  library code; `_common_step` is embedded over an oracle record `DiffEnv`
  whose fields stand for one fixed outcome of the library calls (random
  draws included), so that theorems quantify over every such outcome.
-/

namespace Diffusors

/-- Python built-in exception kinds raised by the code paths modelled here. -/
inductive PyErr where
  | assertionError
  | valueError
  | indexError
  deriving Repr, DecidableEq

/-- Python list indexing `l[i]` for a non-negative index: `IndexError` when
`i` is out of range. -/
def pyListGet {α : Type} (l : List α) (i : Nat) : Except PyErr α :=
  match l.get? i with
  | some x => Except.ok x
  | none => Except.error PyErr.indexError

/-- One step of a linear congruential generator; a deterministic stand-in
for the state transition of the external `numpy.random.RandomState`. -/
def rngStep (s : Nat) : Nat := (s * 1103515245 + 12345) % 2147483648

/-- Model of the external `numpy.random.RandomState` (the `self.R` supplied
by `monai.transforms.Randomizable`). -/
structure RandomState where
  s : Nat
  deriving Repr, DecidableEq

/-- Model of `RandomState.seed(n)`: reinitialises the generator from `n` alone; the
previous state is discarded. -/
def RandomState.seed (_r : RandomState) (n : Nat) : RandomState :=
  ⟨rngStep n⟩

/-- Model of `RandomState.randint(0, hi)` for `hi > 0`: a value in `[0, hi)` plus the
advanced generator state. -/
def RandomState.randintRaw (r : RandomState) (hi : Nat) : Nat × RandomState :=
  (r.s % hi, ⟨rngStep r.s⟩)

/-- Checked model of `RandomState.randint(0, hi)`: numpy raises `ValueError` when the range
`[0, hi)` is empty. -/
def RandomState.randint (r : RandomState) (hi : Nat) : Except PyErr (Nat × RandomState) :=
  if 0 < hi then Except.ok (r.randintRaw hi) else Except.error PyErr.valueError

/-- Embedding of `class PairedAndUnpairedDataset(Dataset, Randomizable)`: fields stored by
`__init__` (lines 48-61 of `segmentation.py`) plus the generator state `R`
inherited from `Randomizable`. The Python `transform` argument (a composed
pipeline of external MONAI transforms) is kept abstract. -/
structure PairedAndUnpairedDataset (α : Type) where
  keys : List String
  data : List (List α)
  transform : Option (List (String × α) → List (String × α)) := none
  length : Option Nat := none
  batch_size : Nat := 32
  R : RandomState := ⟨0⟩

namespace PairedAndUnpairedDataset

variable {α : Type}

/-- Python `__len__` (lines 63-67): the stored `length` when one was supplied,
otherwise `min(len(dataset) for dataset in self.data)`; `min` over an empty
generator raises `ValueError`. -/
def pyLen (ds : PairedAndUnpairedDataset α) : Except PyErr Nat :=
  match ds.length with
  | some l => Except.ok l
  | none =>
    match ds.data.map List.length with
    | [] => Except.error PyErr.valueError
    | x :: xs => Except.ok (xs.foldl Nat.min x)

/-- The selection part of `_transform` (lines 69-80): seed `self.R` with the
item index, draw `rand_idx` and use it for both stream 0 (`keys[0]`) and
stream 1 (`keys[1]`), then draw `rand_idy` for stream 2 and `rand_idz` for
stream 3. Returns the assembled dict (as an ordered association list) and
the mutated generator state. -/
def selectAt (ds : PairedAndUnpairedDataset α) (index : Nat) :
    Except PyErr (List (String × α) × RandomState) := do
  let R0 := ds.R.seed index
  let d0 ← pyListGet ds.data 0
  let (rand_idx, R1) ← R0.randint d0.length
  let k0 ← pyListGet ds.keys 0
  let v0 ← pyListGet d0 rand_idx
  let d1 ← pyListGet ds.data 1
  let k1 ← pyListGet ds.keys 1
  let v1 ← pyListGet d1 rand_idx
  let d2 ← pyListGet ds.data 2
  let (rand_idy, R2) ← R1.randint d2.length
  let k2 ← pyListGet ds.keys 2
  let v2 ← pyListGet d2 rand_idy
  let d3 ← pyListGet ds.data 3
  let (rand_idz, R3) ← R2.randint d3.length
  let k3 ← pyListGet ds.keys 3
  let v3 ← pyListGet d3 rand_idz
  Except.ok ([(k0, v0), (k1, v1), (k2, v2), (k3, v3)], R3)

/-- Python `_transform` (lines 69-85): the selection above followed by
`apply_transform(self.transform, data)` when a transform was supplied. -/
def transformAt (ds : PairedAndUnpairedDataset α) (index : Nat) :
    Except PyErr (List (String × α) × RandomState) := do
  let (data, R) ← ds.selectAt index
  match ds.transform with
  | none => Except.ok (data, R)
  | some t => Except.ok (t data, R)

end PairedAndUnpairedDataset

/-- External call `glob.glob(os.path.join(folder, extension), recursive=True)`:
a filesystem oracle `fs` gives, for each folder and extension pattern, the
matches in filesystem (unsorted) order. `glob_files` (lines 129-135):
`assert folders is not None` (an `AssertionError` when violated), glob each
folder, flatten, and sort ascending. -/
def glob_files (fs : String → String → List String)
    (folders : Option (List String)) (extension : String) :
    Except PyErr (List String) :=
  match folders with
  | none => Except.error PyErr.assertionError
  | some fl => Except.ok (((fl.map (fun folder => fs folder extension)).flatten).mergeSort)

/-- The file list `glob_files` produces on a non-`None` folder list. -/
def glob_files_ok (fs : String → String → List String)
    (folders : List String) (extension : String) : List String :=
  ((folders.map (fun folder => fs folder extension)).flatten).mergeSort

/-- The four batch keys used throughout the module
(`["source", "target", "images", "labels"]`). -/
def batchKeys : List String := ["source", "target", "images", "labels"]

/-- The first batch key, `"source"`. -/
def keySource : String := "source"

/-- The second batch key, `"target"`. -/
def keyTarget : String := "target"

/-- The third batch key, `"images"`. -/
def keyImages : String := "images"

/-- The fourth batch key, `"labels"`. -/
def keyLabels : String := "labels"

/-- The glob pattern `'**/*.png'` handed to `glob_files` for all twelve
file lists (lines 137-150). -/
def pngPattern : String := "**/*.png"

/-- Embedding of `class PairedAndUnpairedDataModule(LightningDataModule)`: the fields its
`__init__` (lines 88-150) stores, with the twelve file lists computed by
`glob_files(folders=..., extension='**/*.png')`. -/
structure PairedAndUnpairedDataModule where
  batch_size : Nat
  shape : Nat
  train_ssource_dirs : List String
  train_starget_dirs : List String
  train_usource_dirs : List String
  train_utarget_dirs : List String
  val_ssource_dirs : List String
  val_starget_dirs : List String
  val_usource_dirs : List String
  val_utarget_dirs : List String
  test_ssource_dirs : List String
  test_starget_dirs : List String
  test_usource_dirs : List String
  test_utarget_dirs : List String
  train_samples : Nat
  val_samples : Nat
  test_samples : Nat
  train_ssource_files : List String
  train_starget_files : List String
  train_usource_files : List String
  train_utarget_files : List String
  val_ssource_files : List String
  val_starget_files : List String
  val_usource_files : List String
  val_utarget_files : List String
  test_ssource_files : List String
  test_starget_files : List String
  test_usource_files : List String
  test_utarget_files : List String

/-- Constructor `PairedAndUnpairedDataModule.__init__` over the filesystem oracle `fs`:
stores its arguments and builds the twelve file lists with
`glob_files(..., extension='**/*.png')` (lines 137-150). -/
def PairedAndUnpairedDataModule.build (fs : String → String → List String)
    (train_ssource_dirs train_starget_dirs train_usource_dirs train_utarget_dirs
     val_ssource_dirs val_starget_dirs val_usource_dirs val_utarget_dirs
     test_ssource_dirs test_starget_dirs test_usource_dirs test_utarget_dirs : List String)
    (shape : Nat := 256) (batch_size : Nat := 32)
    (train_samples : Nat := 4000) (val_samples : Nat := 800) (test_samples : Nat := 800) :
    PairedAndUnpairedDataModule :=
  { batch_size := batch_size
    shape := shape
    train_ssource_dirs := train_ssource_dirs
    train_starget_dirs := train_starget_dirs
    train_usource_dirs := train_usource_dirs
    train_utarget_dirs := train_utarget_dirs
    val_ssource_dirs := val_ssource_dirs
    val_starget_dirs := val_starget_dirs
    val_usource_dirs := val_usource_dirs
    val_utarget_dirs := val_utarget_dirs
    test_ssource_dirs := test_ssource_dirs
    test_starget_dirs := test_starget_dirs
    test_usource_dirs := test_usource_dirs
    test_utarget_dirs := test_utarget_dirs
    train_samples := train_samples
    val_samples := val_samples
    test_samples := test_samples
    train_ssource_files := glob_files_ok fs train_ssource_dirs pngPattern
    train_starget_files := glob_files_ok fs train_starget_dirs pngPattern
    train_usource_files := glob_files_ok fs train_usource_dirs pngPattern
    train_utarget_files := glob_files_ok fs train_utarget_dirs pngPattern
    val_ssource_files := glob_files_ok fs val_ssource_dirs pngPattern
    val_starget_files := glob_files_ok fs val_starget_dirs pngPattern
    val_usource_files := glob_files_ok fs val_usource_dirs pngPattern
    val_utarget_files := glob_files_ok fs val_utarget_dirs pngPattern
    test_ssource_files := glob_files_ok fs test_ssource_dirs pngPattern
    test_starget_files := glob_files_ok fs test_starget_dirs pngPattern
    test_usource_files := glob_files_ok fs test_usource_dirs pngPattern
    test_utarget_files := glob_files_ok fs test_utarget_dirs pngPattern }

/-- Configuration of a `monai.data.DataLoader` as constructed by the
dataloader methods (the loader itself is external). -/
structure DataLoaderConfig where
  batch_size : Nat
  num_workers : Nat
  shuffle : Bool
  deriving Repr, DecidableEq

/-- Method `train_dataloader` (lines 157-187): the dataset it wraps (keys, the four
train file streams, `length=train_samples`, the composed train transform
pipeline abstracted as `tfm`) and the `DataLoader` configuration
(`batch_size`, `num_workers=4`, `shuffle=True`). -/
def PairedAndUnpairedDataModule.train_dataloader
    (dm : PairedAndUnpairedDataModule)
    (tfm : List (String × String) → List (String × String)) :
    PairedAndUnpairedDataset String × DataLoaderConfig :=
  ({ keys := batchKeys
     data := [dm.train_ssource_files, dm.train_starget_files,
              dm.train_usource_files, dm.train_utarget_files]
     transform := some tfm
     length := some dm.train_samples
     batch_size := dm.batch_size },
   { batch_size := dm.batch_size, num_workers := 4, shuffle := true })

/-- Method `val_dataloader` (lines 189-219): same shape over the validation file
streams with `length=val_samples`. -/
def PairedAndUnpairedDataModule.val_dataloader
    (dm : PairedAndUnpairedDataModule)
    (tfm : List (String × String) → List (String × String)) :
    PairedAndUnpairedDataset String × DataLoaderConfig :=
  ({ keys := batchKeys
     data := [dm.val_ssource_files, dm.val_starget_files,
              dm.val_usource_files, dm.val_utarget_files]
     transform := some tfm
     length := some dm.val_samples
     batch_size := dm.batch_size },
   { batch_size := dm.batch_size, num_workers := 4, shuffle := true })

/-- A batch as collated from the dataset's four keys
`"source"`, `"target"`, `"images"`, `"labels"` (line 268). -/
structure Batch (T : Type) where
  source : T
  target : T
  images : T
  labels : T

/-- Oracle record for the external `torch` / MONAI-generative calls made by
`_common_step`: tensors have type `T`, loss values type `L`. Each field
stands for one fixed outcome of the corresponding library call (the random
draws `randint_ts`, `randn_like`, `rand` included), so theorems over every
`DiffEnv` cover every outcome of those draws. -/
structure DiffEnv (T L : Type) where
  shape0 : T → Nat
  randint_ts : Nat → Nat → T
  zeros : Nat → T
  ones : Nat → T
  randn_like : T → T
  rand : Nat → T
  intScale : T → Nat → T
  addOneT : T → T
  add_noise : T → T → T → T
  noise2space : T → T → T → T
  image2label : T → T → T
  label2image : T → T → T
  schedStep : T → Nat → T → T × T
  tensor1 : Nat → T
  l1 : T → T → L

/-- Embedding of `class DDMMLightningModule(LightningModule)`: the scalar configuration
its `__init__` (lines 221-265) stores; the three `DiffusionModelUNet`s, the
scheduler and the `L1Loss` are external and live in `DiffEnv`.
`sched_num_train_timesteps` records the `num_train_timesteps` handed to
`DDPMScheduler` (line 263). -/
structure DDMMLightningModule where
  lr : Rat
  epochs : Nat
  weight_decay : Rat
  num_timesteps : Nat
  batch_size : Nat
  shape : Nat
  num_classes : Nat
  timesteps : Nat
  sched_num_train_timesteps : Nat

/-- The dict `info = {'loss': loss}` returned by `_common_step` (line 349). -/
structure StepInfo (L : Type) where
  loss : L

/-- The stage string passed by `training_step` (line 353). -/
def stageTrain : String := "train"

/-- The stage string passed by `validation_step` (line 356). -/
def stageValidation : String := "validation"

/-- The stage string passed by `test_step` (line 359). -/
def stageTest : String := "test"

/-- The `with torch.no_grad(): for t in tqdm(range(self.num_timesteps))`
loop (lines 302-312), carried state
`(sample_source, sample_target, sample_prev, sample_next)`, all four
initialised to `noise.clone()`. -/
def denoiseLoop {T L : Type} (env : DiffEnv T L) (numT : Nat)
    (class_source class_target class_prev class_next noise : T) : T × T × T × T :=
  (List.range numT).foldl
    (fun st t =>
      let output_source := env.noise2space st.1 (env.tensor1 t) class_source
      let output_target := env.noise2space st.2.1 (env.tensor1 t) class_target
      let ss2 := (env.schedStep output_source t st.1).1
      let stg2 := (env.schedStep output_target t st.2.1).1
      let output_prev := env.noise2space st.2.2.1 (env.tensor1 t) class_prev
      let output_next := env.noise2space st.2.2.2 (env.tensor1 t) class_next
      let sp2 := (env.schedStep output_prev t st.2.2.1).1
      let sn2 := (env.schedStep output_next t st.2.2.2).1
      (ss2, stg2, sp2, sn2))
    (noise, noise, noise, noise)

/-- Method `_common_step` (lines 267-350), loss computation: supervised noise
prediction on the noised source/target, the no-grad denoising loop, the
unsupervised predictions on `sample_prev` / `sample_next`, and
`loss = super_loss + unsup_loss` returned as `{'loss': loss}`. Logging and
TensorBoard visualisation (lines 322-347) have no effect on the returned
value and are not modelled. -/
def DDMMLightningModule.common_step {T L : Type} [AddCommMonoid L]
    (env : DiffEnv T L) (m : DDMMLightningModule) (batch : Batch T)
    (_batch_idx : Nat) (_optimizer_idx : Nat) (_stage : String := "common") :
    StepInfo L :=
  let source := batch.source
  let target := batch.target
  let batches := env.shape0 source
  let timesteps := env.randint_ts m.sched_num_train_timesteps batches
  let class_source := env.zeros batches
  let class_target := env.ones batches
  let noise := env.randn_like source
  let noisy_source := env.add_noise source noise timesteps
  let noisy_target := env.add_noise target noise timesteps
  let super_loss : L := 0
  let noise_source_pred := env.noise2space noisy_source timesteps class_source
  let noise_target_pred := env.noise2space noisy_target timesteps class_target
  let super_loss := super_loss + env.l1 noise noise_source_pred
  let super_loss := super_loss + env.l1 noise noise_target_pred
  let class_prob := env.rand batches
  let class_prev := env.intScale class_prob m.num_timesteps
  let class_next := env.addOneT class_prev
  let looped := denoiseLoop env m.num_timesteps class_source class_target class_prev class_next noise
  let sample_prev := looped.2.2.1
  let sample_next := looped.2.2.2
  let unsup_loss : L := 0
  let sample_prev_pred := env.image2label sample_prev class_prev
  let sample_next_pred := env.label2image sample_next class_next
  let unsup_loss := unsup_loss + env.l1 sample_prev sample_prev_pred
  let unsup_loss := unsup_loss + env.l1 sample_next sample_next_pred
  let loss := super_loss + unsup_loss
  { loss := loss }

/-- Method `training_step` (lines 352-353). -/
def DDMMLightningModule.training_step {T L : Type} [AddCommMonoid L]
    (env : DiffEnv T L) (m : DDMMLightningModule) (batch : Batch T)
    (batch_idx : Nat) : StepInfo L :=
  m.common_step env batch batch_idx 0 stageTrain

/-- Method `validation_step` (lines 355-356). -/
def DDMMLightningModule.validation_step {T L : Type} [AddCommMonoid L]
    (env : DiffEnv T L) (m : DDMMLightningModule) (batch : Batch T)
    (batch_idx : Nat) : StepInfo L :=
  m.common_step env batch batch_idx 0 stageValidation

/-- Method `test_step` (lines 358-359). -/
def DDMMLightningModule.test_step {T L : Type} [AddCommMonoid L]
    (env : DiffEnv T L) (m : DDMMLightningModule) (batch : Batch T)
    (batch_idx : Nat) : StepInfo L :=
  m.common_step env batch batch_idx 0 stageTest

/-- The sampled noise `noise = torch.randn_like(source)` (line 280). -/
def stepNoise {T L : Type} (env : DiffEnv T L) (batch : Batch T) : T :=
  env.randn_like batch.source

/-- The sampled timesteps tensor (line 274). -/
def stepTimesteps {T L : Type} (env : DiffEnv T L) (m : DDMMLightningModule)
    (batch : Batch T) : T :=
  env.randint_ts m.sched_num_train_timesteps (env.shape0 batch.source)

/-- The supervised loss exactly as the claim states it: the sum of the L1
distances between the sampled noise and the `noise2space` predictions on the
noised source and the noised target. -/
def stepSuperLoss {T L : Type} [AddCommMonoid L] (env : DiffEnv T L)
    (m : DDMMLightningModule) (batch : Batch T) : L :=
  env.l1 (stepNoise env batch)
    (env.noise2space
      (env.add_noise batch.source (stepNoise env batch) (stepTimesteps env m batch))
      (stepTimesteps env m batch) (env.zeros (env.shape0 batch.source))) +
  env.l1 (stepNoise env batch)
    (env.noise2space
      (env.add_noise batch.target (stepNoise env batch) (stepTimesteps env m batch))
      (stepTimesteps env m batch) (env.ones (env.shape0 batch.source)))

/-- The class tensor `class_prev = (class_prob * num_timesteps).int()`
(line 294). -/
def stepClassPrev {T L : Type} (env : DiffEnv T L) (m : DDMMLightningModule)
    (batch : Batch T) : T :=
  env.intScale (env.rand (env.shape0 batch.source)) m.num_timesteps

/-- The denoised sample `sample_prev` after the no-grad loop. -/
def stepSamplePrev {T L : Type} (env : DiffEnv T L) (m : DDMMLightningModule)
    (batch : Batch T) : T :=
  (denoiseLoop env m.num_timesteps (env.zeros (env.shape0 batch.source))
    (env.ones (env.shape0 batch.source)) (stepClassPrev env m batch)
    (env.addOneT (stepClassPrev env m batch)) (stepNoise env batch)).2.2.1

/-- The denoised sample `sample_next` after the no-grad loop. -/
def stepSampleNext {T L : Type} (env : DiffEnv T L) (m : DDMMLightningModule)
    (batch : Batch T) : T :=
  (denoiseLoop env m.num_timesteps (env.zeros (env.shape0 batch.source))
    (env.ones (env.shape0 batch.source)) (stepClassPrev env m batch)
    (env.addOneT (stepClassPrev env m batch)) (stepNoise env batch)).2.2.2

/-- The unsupervised loss exactly as the claim states it: the sum of the L1
distances between `sample_prev` / `sample_next` and the predictions of
`image2label` / `label2image` on them. -/
def stepUnsupLoss {T L : Type} [AddCommMonoid L] (env : DiffEnv T L)
    (m : DDMMLightningModule) (batch : Batch T) : L :=
  env.l1 (stepSamplePrev env m batch)
    (env.image2label (stepSamplePrev env m batch) (stepClassPrev env m batch)) +
  env.l1 (stepSampleNext env m batch)
    (env.label2image (stepSampleNext env m batch) (env.addOneT (stepClassPrev env m batch)))

/-- The hyperparameter namespace produced by `parser.parse_args()`
(lines 381-401): one field per `add_argument` call. An arbitrary `Hparams`
value stands for an arbitrary parse outcome. -/
structure Hparams where
  seed : Nat
  timesteps : Nat
  batch_size : Nat
  shape : Nat
  train_samples : Nat
  val_samples : Nat
  test_samples : Nat
  logsdir : String
  datadir : String
  epochs : Nat
  lr : Rat
  ckpt : Option String
  weight_decay : Rat

/-- The default values declared by the `add_argument` calls
(lines 382-396). -/
def defaultHparams : Hparams :=
  { seed := 42
    timesteps := 100
    batch_size := 8
    shape := 256
    train_samples := 40000
    val_samples := 8000
    test_samples := 4000
    logsdir := "logs"
    datadir := "data"
    epochs := 31
    lr := 1 / 10000
    ckpt := none
    weight_decay := 1 / 10000 }

/-- The option strings registered on the `ArgumentParser`
(lines 382-396), before `Trainer.add_argparse_args` adds the framework's
own options. -/
def cliArgNames : List String :=
  ["--seed", "--timesteps", "--batch_size", "--shape", "--train_samples",
   "--val_samples", "--test_samples", "--logsdir", "--datadir", "--epochs",
   "--lr", "--ckpt", "--weight_decay"]

/-- Model of `os.path.join(a, b)` for a relative second component. -/
def pjoin (a b : String) : String := a ++ "/" ++ b

/-- Relative path of the T62020 raw images. -/
def relImages2020 : String := "SpineXRVertSegmentation/T62020/20200501/raw/images"

/-- Relative path of the T62022 raw images. -/
def relImages2022 : String := "SpineXRVertSegmentation/T62022/20220501/raw/images"

/-- Relative path of the T62021 raw images. -/
def relImages2021 : String := "SpineXRVertSegmentation/T62021/20211101/raw/images"

/-- Relative path of the T62020 raw labels. -/
def relLabels2020 : String := "SpineXRVertSegmentation/T62020/20200501/raw/labels"

/-- Relative path of the T62022 raw labels. -/
def relLabels2022 : String := "SpineXRVertSegmentation/T62022/20220501/raw/labels"

/-- Relative path of the T62021 raw labels. -/
def relLabels2021 : String := "SpineXRVertSegmentation/T62021/20211101/raw/labels"

/-- Relative path of the processed VinDr train images. -/
def relVinDrTrain : String := "SpineXRVertSegmentation/VinDr/v1/processed/train/images/"

/-- Relative path of the processed VinDr test images. -/
def relVinDrTest : String := "SpineXRVertSegmentation/VinDr/v1/processed/test/images/"

/-- List `train_ssource_dirs` (lines 404-410). -/
def train_ssource_dirs (datadir : String) : List String :=
  [pjoin datadir relImages2020,
   pjoin datadir relImages2022,
   pjoin datadir relImages2021]

/-- List `train_starget_dirs` (lines 411-417). -/
def train_starget_dirs (datadir : String) : List String :=
  [pjoin datadir relLabels2020,
   pjoin datadir relLabels2022,
   pjoin datadir relLabels2021]

/-- List `train_usource_dirs` (lines 418-424). -/
def train_usource_dirs (datadir : String) : List String :=
  [pjoin datadir relImages2020,
   pjoin datadir relImages2022,
   pjoin datadir relImages2021,
   pjoin datadir relVinDrTrain,
   pjoin datadir relVinDrTest]

/-- List `train_utarget_dirs` (lines 425-429). -/
def train_utarget_dirs (datadir : String) : List String :=
  [pjoin datadir relLabels2020,
   pjoin datadir relLabels2022,
   pjoin datadir relLabels2021]

/-- List `val_ssource_dirs` (lines 432-438). -/
def val_ssource_dirs (datadir : String) : List String :=
  train_ssource_dirs datadir

/-- List `val_starget_dirs` (lines 439-445). -/
def val_starget_dirs (datadir : String) : List String :=
  train_starget_dirs datadir

/-- List `val_usource_dirs` (lines 446-452). -/
def val_usource_dirs (datadir : String) : List String :=
  [pjoin datadir relImages2020,
   pjoin datadir relImages2022,
   pjoin datadir relImages2021,
   pjoin datadir relVinDrTest]

/-- List `val_utarget_dirs` (lines 453-457). -/
def val_utarget_dirs (datadir : String) : List String :=
  [pjoin datadir relLabels2020,
   pjoin datadir relLabels2022,
   pjoin datadir relLabels2021]

/-- Constructor `DDMMLightningModule.__init__` reading its scalars from `hparams`
(lines 222-263); `num_classes = 2` is hardcoded and the scheduler receives
`num_train_timesteps=hparams.timesteps`. -/
def DDMMLightningModule.ofHparams (h : Hparams) : DDMMLightningModule :=
  { lr := h.lr
    epochs := h.epochs
    weight_decay := h.weight_decay
    num_timesteps := h.timesteps
    batch_size := h.batch_size
    shape := h.shape
    num_classes := 2
    timesteps := h.timesteps
    sched_num_train_timesteps := h.timesteps }

/-- The `ModelCheckpoint` configuration (lines 507-513). -/
structure ModelCheckpointConfig where
  dirpath : String
  filename : String
  save_top_k : Int
  save_last : Bool
  every_n_epochs : Nat
  deriving Repr, DecidableEq

/-- The `Trainer.from_argparse_args` configuration the script fixes
(lines 519-542) together with the logger's save directory (line 516). -/
structure TrainerConfig where
  max_epochs : Nat
  strategy : String
  logger_save_dir : String
  deriving Repr, DecidableEq

/-- Everything the `__main__` block (lines 380-548) wires together, as far
as the repository's own code determines it. -/
structure MainConfig where
  datamodule : PairedAndUnpairedDataModule
  datamoduleSetupSeed : Nat
  model : DDMMLightningModule
  seedEverythingArg : Nat
  checkpoint : ModelCheckpointConfig
  trainer : TrainerConfig
  fitCkptPath : Option String

/-- The `__main__` block over the filesystem oracle `fs` and a parse
outcome `h`: builds the data module from the directory lists, calls
`datamodule.setup(seed=hparams.seed)` (line 485), constructs the model from
`hparams`, calls `seed_everything(42)` (line 504), configures the
checkpoint callback, logger and trainer, and passes
`ckpt_path=hparams.ckpt` to `trainer.fit` (line 547). -/
def runMain (fs : String → String → List String) (h : Hparams) : MainConfig :=
  { datamodule :=
      PairedAndUnpairedDataModule.build fs
        (train_ssource_dirs h.datadir) (train_starget_dirs h.datadir)
        (train_usource_dirs h.datadir) (train_utarget_dirs h.datadir)
        (val_ssource_dirs h.datadir) (val_starget_dirs h.datadir)
        (val_usource_dirs h.datadir) (val_utarget_dirs h.datadir)
        (val_ssource_dirs h.datadir) (val_starget_dirs h.datadir)
        (val_usource_dirs h.datadir) (val_utarget_dirs h.datadir)
        h.shape h.batch_size h.train_samples h.val_samples h.test_samples
    datamoduleSetupSeed := h.seed
    model := DDMMLightningModule.ofHparams h
    seedEverythingArg := 42
    checkpoint :=
      { dirpath := h.logsdir
        filename := "\x7bepoch:02d\x7d-\x7bvalidation_loss_epoch:.2f\x7d"
        save_top_k := -1
        save_last := true
        every_n_epochs := 1 }
    trainer :=
      { max_epochs := h.epochs
        strategy := "ddp_sharded"
        logger_save_dir := h.logsdir }
    fitCkptPath := h.ckpt }

/-- C1: for every training, validation, or test batch, the step loss
returned by `_common_step` is the sum of exactly two terms: the supervised
loss (sum of the L1 distances between the sampled noise and the
`noise2space` predictions on the noised source and noised target) and the
unsupervised loss (sum of the L1 distances between the denoised samples
`sample_prev` / `sample_next` and the predictions of `image2label` /
`label2image` on them); the batch is assembled from the four data streams
keyed `"source"`, `"target"`, `"images"`, `"labels"`. -/
theorem claim_C1 {T L : Type} [AddCommMonoid L] (env : DiffEnv T L)
    (m : DDMMLightningModule) (batch : Batch T)
    (batch_idx optimizer_idx : Nat) (stage : String) :
    (m.common_step env batch batch_idx optimizer_idx stage).loss
        = stepSuperLoss env m batch + stepUnsupLoss env m batch
      ∧ m.training_step env batch batch_idx
          = m.common_step env batch batch_idx 0 stageTrain
      ∧ m.validation_step env batch batch_idx
          = m.common_step env batch batch_idx 0 stageValidation
      ∧ m.test_step env batch batch_idx
          = m.common_step env batch batch_idx 0 stageTest
      ∧ (∀ (dm : PairedAndUnpairedDataModule)
            (tfm : List (String × String) → List (String × String)),
          (dm.train_dataloader tfm).1.keys
              = ["source", "target", "images", "labels"]
            ∧ (dm.train_dataloader tfm).1.data
              = [dm.train_ssource_files, dm.train_starget_files,
                 dm.train_usource_files, dm.train_utarget_files]
            ∧ (dm.val_dataloader tfm).1.keys
              = ["source", "target", "images", "labels"]) := by
  refine ⟨?_, rfl, rfl, rfl, fun dm tfm => ⟨rfl, rfl, rfl⟩⟩
  simp [DDMMLightningModule.common_step, stepSuperLoss, stepUnsupLoss,
    stepSamplePrev, stepSampleNext, stepClassPrev, stepNoise, stepTimesteps,
    zero_add, add_assoc]

/-- C3: `_transform` seeds the generator with the item index before
drawing, so the selection (and the whole item) is independent of the
generator state the dataset carried before the call: for every fixed
dataset and index, any two calls select the same quadruple. -/
theorem claim_C3 {α : Type} (ds : PairedAndUnpairedDataset α) (index : Nat)
    (R1 R2 : RandomState) :
    ({ds with R := R1} : PairedAndUnpairedDataset α).selectAt index
        = ({ds with R := R2} : PairedAndUnpairedDataset α).selectAt index
      ∧ ({ds with R := R1} : PairedAndUnpairedDataset α).transformAt index
        = ({ds with R := R2} : PairedAndUnpairedDataset α).transformAt index :=
  ⟨rfl, rfl⟩

/-- C4: `__len__` returns the constructor's `length` argument when it was
supplied, and otherwise the minimum of the lengths of the four data
streams. (In the embedding `pyLen` is a pure function of the dataset, so it
modifies nothing.) -/
theorem claim_C4 {α : Type} (ds : PairedAndUnpairedDataset α) :
    (∀ l, ds.length = some l → ds.pyLen = Except.ok l)
      ∧ (∀ d0 d1 d2 d3 : List α, ds.length = none → ds.data = [d0, d1, d2, d3] →
          ds.pyLen = Except.ok
            (Nat.min (Nat.min (Nat.min d0.length d1.length) d2.length) d3.length)) := by
  constructor
  · intro l hl
    simp [PairedAndUnpairedDataset.pyLen, hl]
  · intro d0 d1 d2 d3 hl hd
    simp [PairedAndUnpairedDataset.pyLen, hl, hd]

/-- Witness for C4 at concrete datasets: one with an explicit `length`, one
falling back to the minimum of the four stream lengths. -/
theorem claim_C4_witness :
    ({ keys := batchKeys, data := [], length := some 7 } :
        PairedAndUnpairedDataset Nat).pyLen = Except.ok 7
      ∧ ({ keys := batchKeys, data := [[1, 2], [3, 4, 5], [6, 7], [8, 9, 10, 11]],
           length := none } : PairedAndUnpairedDataset Nat).pyLen
        = Except.ok (Nat.min (Nat.min (Nat.min 2 3) 2) 4) :=
  ⟨(claim_C4 _).1 7 rfl, (claim_C4 _).2 [1, 2] [3, 4, 5] [6, 7] [8, 9, 10, 11] rfl rfl⟩

/-- C5: on a non-`None` folder list, `glob_files` returns the per-directory
glob matches flattened into one list and sorted ascending (stated as: the
result is sorted and is a permutation of the flattened concatenation), and
the twelve dataset file lists of `PairedAndUnpairedDataModule` are built
this way with the PNG pattern `**/*.png`. -/
theorem claim_C5 (fs : String → String → List String) :
    pngPattern = "**/*.png"
      ∧ (∀ (folders : List String) (extension : String),
        glob_files fs (some folders) extension
            = Except.ok (glob_files_ok fs folders extension)
          ∧ (glob_files_ok fs folders extension).Sorted (· ≤ ·)
          ∧ (glob_files_ok fs folders extension).Perm
              ((folders.map (fun folder => fs folder extension)).flatten))
      ∧ (∀ (a1 a2 a3 a4 a5 a6 a7 a8 a9 a10 a11 a12 : List String)
            (shape batch_size ts vs tes : Nat),
          (PairedAndUnpairedDataModule.build fs a1 a2 a3 a4 a5 a6 a7 a8 a9 a10 a11 a12
              shape batch_size ts vs tes).train_ssource_files
              = glob_files_ok fs a1 pngPattern
            ∧ (PairedAndUnpairedDataModule.build fs a1 a2 a3 a4 a5 a6 a7 a8 a9 a10 a11 a12
              shape batch_size ts vs tes).train_starget_files
              = glob_files_ok fs a2 pngPattern
            ∧ (PairedAndUnpairedDataModule.build fs a1 a2 a3 a4 a5 a6 a7 a8 a9 a10 a11 a12
              shape batch_size ts vs tes).train_usource_files
              = glob_files_ok fs a3 pngPattern
            ∧ (PairedAndUnpairedDataModule.build fs a1 a2 a3 a4 a5 a6 a7 a8 a9 a10 a11 a12
              shape batch_size ts vs tes).train_utarget_files
              = glob_files_ok fs a4 pngPattern
            ∧ (PairedAndUnpairedDataModule.build fs a1 a2 a3 a4 a5 a6 a7 a8 a9 a10 a11 a12
              shape batch_size ts vs tes).val_ssource_files
              = glob_files_ok fs a5 pngPattern
            ∧ (PairedAndUnpairedDataModule.build fs a1 a2 a3 a4 a5 a6 a7 a8 a9 a10 a11 a12
              shape batch_size ts vs tes).val_starget_files
              = glob_files_ok fs a6 pngPattern
            ∧ (PairedAndUnpairedDataModule.build fs a1 a2 a3 a4 a5 a6 a7 a8 a9 a10 a11 a12
              shape batch_size ts vs tes).val_usource_files
              = glob_files_ok fs a7 pngPattern
            ∧ (PairedAndUnpairedDataModule.build fs a1 a2 a3 a4 a5 a6 a7 a8 a9 a10 a11 a12
              shape batch_size ts vs tes).val_utarget_files
              = glob_files_ok fs a8 pngPattern
            ∧ (PairedAndUnpairedDataModule.build fs a1 a2 a3 a4 a5 a6 a7 a8 a9 a10 a11 a12
              shape batch_size ts vs tes).test_ssource_files
              = glob_files_ok fs a9 pngPattern
            ∧ (PairedAndUnpairedDataModule.build fs a1 a2 a3 a4 a5 a6 a7 a8 a9 a10 a11 a12
              shape batch_size ts vs tes).test_starget_files
              = glob_files_ok fs a10 pngPattern
            ∧ (PairedAndUnpairedDataModule.build fs a1 a2 a3 a4 a5 a6 a7 a8 a9 a10 a11 a12
              shape batch_size ts vs tes).test_usource_files
              = glob_files_ok fs a11 pngPattern
            ∧ (PairedAndUnpairedDataModule.build fs a1 a2 a3 a4 a5 a6 a7 a8 a9 a10 a11 a12
              shape batch_size ts vs tes).test_utarget_files
              = glob_files_ok fs a12 pngPattern) := by
  refine ⟨rfl, ?_, ?_⟩
  · intro folders extension
    refine ⟨rfl, ?_, ?_⟩
    · exact List.sorted_mergeSort' _
    · exact List.mergeSort_perm _ _
  · intro a1 a2 a3 a4 a5 a6 a7 a8 a9 a10 a11 a12 shape batch_size ts vs tes
    exact ⟨rfl, rfl, rfl, rfl, rfl, rfl, rfl, rfl, rfl, rfl, rfl, rfl⟩

/-- C2: `_transform` keeps the supervised pair paired: the entries under
`keys[0]` and `keys[1]` are taken from the first and second data streams at
the same random index (the first draw after seeding), while the entries
under `keys[2]` and `keys[3]` are taken at two further, separately drawn
random indices. -/
theorem claim_C2 {α : Type} (ds : PairedAndUnpairedDataset α) (index : Nat)
    (k0 k1 k2 k3 : String) (d0 d1 d2 d3 : List α)
    (hk : ds.keys = [k0, k1, k2, k3]) (hd : ds.data = [d0, d1, d2, d3])
    (h0 : 0 < d0.length) (h2 : 0 < d2.length) (h3 : 0 < d3.length)
    (h1 : ((ds.R.seed index).randintRaw d0.length).1 < d1.length) :
    ∃ v0 v1 v2 v3,
      d0.get? ((ds.R.seed index).randintRaw d0.length).1 = some v0
      ∧ d1.get? ((ds.R.seed index).randintRaw d0.length).1 = some v1
      ∧ d2.get?
          (((ds.R.seed index).randintRaw d0.length).2.randintRaw d2.length).1 = some v2
      ∧ d3.get?
          ((((ds.R.seed index).randintRaw d0.length).2.randintRaw
            d2.length).2.randintRaw d3.length).1 = some v3
      ∧ ds.selectAt index
          = Except.ok ([(k0, v0), (k1, v1), (k2, v2), (k3, v3)],
              ((((ds.R.seed index).randintRaw d0.length).2.randintRaw
                d2.length).2.randintRaw d3.length).2) := by
  have hx0 : ((ds.R.seed index).randintRaw d0.length).1 < d0.length :=
    Nat.mod_lt _ h0
  have hy2 :
      (((ds.R.seed index).randintRaw d0.length).2.randintRaw d2.length).1
        < d2.length := Nat.mod_lt _ h2
  have hz3 :
      ((((ds.R.seed index).randintRaw d0.length).2.randintRaw
        d2.length).2.randintRaw d3.length).1 < d3.length := Nat.mod_lt _ h3
  refine ⟨d0.get ⟨_, hx0⟩, d1.get ⟨_, h1⟩, d2.get ⟨_, hy2⟩, d3.get ⟨_, hz3⟩,
    List.get?_eq_get hx0, List.get?_eq_get h1, List.get?_eq_get hy2,
    List.get?_eq_get hz3, ?_⟩
  simp [PairedAndUnpairedDataset.selectAt, pyListGet, RandomState.randint,
    bind, Except.bind, hk, hd, h0, h2, h3, hx0, hy2, hz3, h1,
    List.getElem?_eq_getElem]

/-- A concrete dataset for evaluating `claim_C2`. -/
def dsPairW : PairedAndUnpairedDataset Nat :=
  { keys := batchKeys, data := [[10, 20], [30, 40], [50, 60, 70], [80, 90]] }

/-- Witness for C2 at `dsPairW` and index 5: the hypotheses hold by
computation and the selection pairs streams 0 and 1 at the same draw. -/
theorem claim_C2_witness :
    ∃ v0 v1 v2 v3,
      ([10, 20] : List Nat).get? ((dsPairW.R.seed 5).randintRaw 2).1 = some v0
      ∧ ([30, 40] : List Nat).get? ((dsPairW.R.seed 5).randintRaw 2).1 = some v1
      ∧ ([50, 60, 70] : List Nat).get?
          (((dsPairW.R.seed 5).randintRaw 2).2.randintRaw 3).1 = some v2
      ∧ ([80, 90] : List Nat).get?
          ((((dsPairW.R.seed 5).randintRaw 2).2.randintRaw 3).2.randintRaw 2).1
          = some v3
      ∧ dsPairW.selectAt 5
          = Except.ok ([("source", v0), ("target", v1), ("images", v2), ("labels", v3)],
              ((((dsPairW.R.seed 5).randintRaw 2).2.randintRaw 3).2.randintRaw 2).2) :=
  claim_C2 dsPairW 5 keySource keyTarget keyImages keyLabels
    [10, 20] [30, 40] [50, 60, 70] [80, 90] rfl rfl
    (by decide) (by decide) (by decide) (by decide)

/-- C6 counterexample: with `--seed 7`, the data module's determinism setup
receives 7 but the global `seed_everything` call receives the constant 42,
not `hparams.seed`. -/
theorem claim_C6_counterexample :
    (runMain (fun _ _ => []) { defaultHparams with seed := 7 }).datamoduleSetupSeed = 7
      ∧ (runMain (fun _ _ => []) { defaultHparams with seed := 7 }).seedEverythingArg = 42
      ∧ (runMain (fun _ _ => []) { defaultHparams with seed := 7 }).seedEverythingArg
          ≠ ({ defaultHparams with seed := 7 } : Hparams).seed :=
  ⟨rfl, rfl, by decide⟩

/-- C6 (amended): `hparams.seed` is the seed passed to
`datamodule.setup`, while the global `seed_everything` before training is
always called with the constant 42. -/
theorem claim_C6 (fs : String → String → List String) (h : Hparams) :
    (runMain fs h).datamoduleSetupSeed = h.seed
      ∧ (runMain fs h).seedEverythingArg = 42 :=
  ⟨rfl, rfl⟩

/-- C7: the CLI registers options for seed, timesteps, batch size, learning
rate, epochs, checkpoint path and the data/log directories, each with a
default, and the parsed values are the ones wired into the data module, the
model and the trainer. -/
theorem claim_C7 :
    ("--seed" ∈ cliArgNames ∧ "--timesteps" ∈ cliArgNames
        ∧ "--batch_size" ∈ cliArgNames ∧ "--lr" ∈ cliArgNames
        ∧ "--epochs" ∈ cliArgNames ∧ "--ckpt" ∈ cliArgNames
        ∧ "--datadir" ∈ cliArgNames ∧ "--logsdir" ∈ cliArgNames)
      ∧ (defaultHparams.seed = 42 ∧ defaultHparams.timesteps = 100
        ∧ defaultHparams.batch_size = 8 ∧ defaultHparams.lr = 1 / 10000
        ∧ defaultHparams.epochs = 31 ∧ defaultHparams.ckpt = none
        ∧ defaultHparams.datadir = "data" ∧ defaultHparams.logsdir = "logs")
      ∧ (∀ (fs : String → String → List String) (h : Hparams),
          (runMain fs h).datamodule.batch_size = h.batch_size
          ∧ (runMain fs h).datamodule.train_samples = h.train_samples
          ∧ (runMain fs h).datamodule.train_ssource_dirs = train_ssource_dirs h.datadir
          ∧ (runMain fs h).model.lr = h.lr
          ∧ (runMain fs h).model.epochs = h.epochs
          ∧ (runMain fs h).model.num_timesteps = h.timesteps
          ∧ (runMain fs h).model.batch_size = h.batch_size
          ∧ (runMain fs h).trainer.max_epochs = h.epochs
          ∧ (runMain fs h).trainer.logger_save_dir = h.logsdir
          ∧ (runMain fs h).checkpoint.dirpath = h.logsdir
          ∧ (runMain fs h).fitCkptPath = h.ckpt) := by
  refine ⟨⟨?_, ?_, ?_, ?_, ?_, ?_, ?_, ?_⟩,
    ⟨rfl, rfl, rfl, rfl, rfl, rfl, rfl, rfl⟩,
    fun fs h => ⟨rfl, rfl, rfl, rfl, rfl, rfl, rfl, rfl, rfl, rfl, rfl⟩⟩ <;>
    simp [cliArgNames]

/-- C8: failures are not caught anywhere in the repository's code: a `None`
folder list fails `glob_files`'s assertion, `_transform` passes any
selection error through unchanged, an empty first data stream surfaces as
the generator's `ValueError`, and `__len__` on an empty stream list
surfaces `min`'s `ValueError`. -/
theorem claim_C8 :
    (∀ (fs : String → String → List String) (extension : String),
        glob_files fs none extension = Except.error PyErr.assertionError)
      ∧ (∀ (α : Type) (ds : PairedAndUnpairedDataset α) (index : Nat) (e : PyErr),
          ds.selectAt index = Except.error e →
            ds.transformAt index = Except.error e)
      ∧ (∀ (α : Type) (ds : PairedAndUnpairedDataset α) (index : Nat)
            (d1 d2 d3 : List α),
          ds.data = [[], d1, d2, d3] →
            ds.transformAt index = Except.error PyErr.valueError)
      ∧ (∀ (α : Type) (ds : PairedAndUnpairedDataset α),
          ds.data = [] → ds.length = none →
            ds.pyLen = Except.error PyErr.valueError) := by
  refine ⟨fun fs extension => rfl, ?_, ?_, ?_⟩
  · intro α ds index e hsel
    simp [PairedAndUnpairedDataset.transformAt, hsel, bind, Except.bind]
  · intro α ds index d1 d2 d3 hd
    simp [PairedAndUnpairedDataset.transformAt, PairedAndUnpairedDataset.selectAt,
      hd, pyListGet, RandomState.randint, bind, Except.bind]
  · intro α ds hd hl
    simp [PairedAndUnpairedDataset.pyLen, hd, hl]

/-- A dataset with no data streams at all. -/
def dsNoStreams : PairedAndUnpairedDataset Nat := { keys := batchKeys, data := [] }

/-- A dataset whose first data stream is empty. -/
def dsEmptyFirst : PairedAndUnpairedDataset Nat :=
  { keys := batchKeys, data := [[], [1], [2], [3]] }

/-- Witness for C8 at concrete datasets: the errors surface unchanged. -/
theorem claim_C8_witness :
    dsNoStreams.transformAt 0 = Except.error PyErr.indexError
      ∧ dsEmptyFirst.transformAt 0 = Except.error PyErr.valueError
      ∧ dsNoStreams.pyLen = Except.error PyErr.valueError :=
  ⟨claim_C8.2.1 Nat dsNoStreams 0 PyErr.indexError rfl,
   claim_C8.2.2.1 Nat dsEmptyFirst 0 [1] [2] [3] rfl,
   claim_C8.2.2.2 Nat dsNoStreams rfl rfl⟩

/-- C9: the checkpoint callback saves every epoch (`every_n_epochs=1`),
keeps every checkpoint (`save_top_k=-1`), additionally saves the last one
(`save_last=True`), and writes into the log directory from the command
line. -/
theorem claim_C9 (fs : String → String → List String) (h : Hparams) :
    (runMain fs h).checkpoint
      = { dirpath := h.logsdir
          filename := "\x7bepoch:02d\x7d-\x7bvalidation_loss_epoch:.2f\x7d"
          save_top_k := -1
          save_last := true
          every_n_epochs := 1 } :=
  rfl

/-- C10: data-loading parallelism comes only from the loader worker pool
(`num_workers=4` on both dataloaders) and distributed training only from
the trainer's `"ddp_sharded"` strategy; the repository's own code creates
no threads, processes or locks. -/
theorem claim_C10 :
    (∀ (dm : PairedAndUnpairedDataModule)
        (tfm : List (String × String) → List (String × String)),
        (dm.train_dataloader tfm).2
            = { batch_size := dm.batch_size, num_workers := 4, shuffle := true }
          ∧ (dm.val_dataloader tfm).2
            = { batch_size := dm.batch_size, num_workers := 4, shuffle := true })
      ∧ (∀ (fs : String → String → List String) (h : Hparams),
          (runMain fs h).trainer.strategy = "ddp_sharded") :=
  ⟨fun _ _ => ⟨rfl, rfl⟩, fun _ _ => rfl⟩

end Diffusors
